import Mathlib

/-!
# Verification of the polls API domain model

A shallow embedding of the `polls` Django application: the relational rows
(`Question`, `Choice`, `Vote`, plus the framework `User`), the managers from
`polls/models.py`, the serializer validation hooks from
`polls/serializers.py`, the permission classes from `polls/permissions.py`,
and the view-set request handlers from `polls/views.py`.

Rows live in in-memory lists standing for the relational tables; a request
handler is a function from the table state (plus the requesting user and the
URL parameters) to either an error or a result/new state.  Database times are
integers, `now` is passed explicitly.
-/

namespace Polls

/-- The framework user row (only the parts the polls app reads:
primary key, `username`, and the `is_authenticated` flag that is `false`
exactly for the anonymous user of an unauthenticated request). -/
structure User where
  pk : Nat
  username : String
  is_authenticated : Bool
deriving Repr, DecidableEq

/-- `Question` row: `author` is the user FK, `question_text` carries a
unique constraint, `date_published` is the publication timestamp. -/
structure Question where
  id : Nat
  author : Nat
  question_text : String
  date_published : Int
deriving Repr, DecidableEq

/-- `Choice` row: `question` is the FK to its question;
`(question, choice_text)` carries the `unique_choices_per_question`
constraint. -/
structure Choice where
  id : Nat
  question : Nat
  choice_text : String
deriving Repr, DecidableEq

/-- `Vote` row: `voter` is the user FK, `choice` the choice FK,
`hide_voter` defaults to `true`; `(voter, choice)` carries the
`unique_voters_per_choice` constraint. -/
structure Vote where
  id : Nat
  voter : Nat
  choice : Nat
  hide_voter : Bool
deriving Repr, DecidableEq

/-- The relational store: one list per table. -/
structure State where
  users : List User
  questions : List Question
  choices : List Choice
  votes : List Vote
deriving Repr, DecidableEq

/-- HTTP method of a request (the ones the routes expose). -/
inductive Method where
  | GET
  | POST
  | PUT
  | DELETE
deriving Repr, DecidableEq

/-- `rest_framework.permissions.SAFE_METHODS` restricted to the methods
above. -/
def Method.isSafe : Method → Bool
  | .GET => true
  | _ => false

/-- Error outcomes a request can end in. `validation` is a serializer
`ValidationError` (HTTP 400); `forbidden` a permission denial (403);
`notFound` a failed object lookup (404); `integrity` a database constraint
violation escaping to the database layer; `doesNotExist` an uncaught ORM
`DoesNotExist` exception.  The last two are server errors (500). -/
inductive ApiError where
  | validation (msg : String)
  | forbidden
  | notFound
  | integrity (name : String)
  | doesNotExist
deriving Repr, DecidableEq

/-- Whether an error is a serializer validation rejection (HTTP 400). -/
def ApiError.isValidation : ApiError → Bool
  | .validation _ => true
  | _ => false

/-- HTTP status code of each error outcome. -/
def statusCode : ApiError → Nat
  | .validation _ => 400
  | .forbidden => 403
  | .notFound => 404
  | .integrity _ => 500
  | .doesNotExist => 500

/-- Number of choices referencing a question
(the `Count("choice")` annotation). -/
def choice_count (s : State) (q : Question) : Nat :=
  (s.choices.filter (fun c => c.question == q.id)).length

/-- `PublishedQuestionManager.get_queryset`: annotate each question with its
choice count, exclude `date_published > now` or `choice_count = 0`, and
order by `date_published` descending. -/
def published_get_queryset (s : State) (now : Int) : List Question :=
  (s.questions.filter
      (fun q => !(decide (now < q.date_published) || choice_count s q == 0))).insertionSort
    (fun a b => b.date_published ≤ a.date_published)

/-- `Question.objects` insert of one question row, subject to the
`unique=True` constraint on `question_text`. -/
def insertQuestion (s : State) (q : Question) : Except ApiError State :=
  if s.questions.any (fun q0 => q0.question_text == q.question_text) then
    .error (.integrity "question_text_unique")
  else
    .ok { s with questions := s.questions ++ [q] }

/-- `Choice` row insert, subject to the `unique_choices_per_question`
constraint on `(question, choice_text)`. -/
def insertChoice (s : State) (c : Choice) : Except ApiError State :=
  if s.choices.any (fun c0 => c0.question == c.question && c0.choice_text == c.choice_text) then
    .error (.integrity "unique_choices_per_question")
  else
    .ok { s with choices := s.choices ++ [c] }

/-- `Vote` row insert, subject to the `unique_voters_per_choice`
constraint on `(voter, choice)`. -/
def insertVote (s : State) (v : Vote) : Except ApiError State :=
  if s.votes.any (fun v0 => v0.voter == v.voter && v0.choice == v.choice) then
    .error (.integrity "unique_voters_per_choice")
  else
    .ok { s with votes := s.votes ++ [v] }

/-- `Vote` row in-place save (`instance.save()` on an existing row), subject
to the `unique_voters_per_choice` constraint against the other rows. -/
def saveVoteRow (s : State) (v : Vote) : Except ApiError State :=
  if s.votes.any (fun v0 => v0.id != v.id && v0.voter == v.voter && v0.choice == v.choice) then
    .error (.integrity "unique_voters_per_choice")
  else
    .ok { s with votes := s.votes.map (fun v0 => if v0.id == v.id then v else v0) }

/-- Runs SQL statements in order against the store.  Outside a transaction a
failing statement leaves the rows written by the earlier statements in
place: the returned state is the one reached just before the failure. -/
def runStatements (s : State) : List (State → Except ApiError State) → State × Option ApiError
  | [] => (s, none)
  | f :: rest =>
    match f s with
    | .ok s2 => runStatements s2 rest
    | .error e => (s, some e)

/-- `django.db.transaction.atomic`: run the statements; if any fails, roll
the store back to the state at entry. -/
def transaction_atomic (s : State) (stmts : List (State → Except ApiError State)) :
    State × Option ApiError :=
  match runStatements s stmts with
  | (_, some e) => (s, some e)
  | (s2, none) => (s2, none)

/-- `QuestionManager.create` (decorated with `@transaction.atomic`): insert
the question row, then one choice row per payload entry, all in one
transaction.  `choice_payload` carries the fresh row ids and the
`choice_text` values. -/
def QuestionManager.create (s : State) (qid author : Nat) (question_text : String)
    (date_published : Int) (choice_payload : List (Nat × String)) :
    State × Option ApiError :=
  transaction_atomic s
    ((fun s0 => insertQuestion s0
        { id := qid, author := author, question_text := question_text,
          date_published := date_published }) ::
      choice_payload.map (fun c => fun s0 => insertChoice s0
        { id := c.1, question := qid, choice_text := c.2 }))

/-- `QuestionSerializer.validate_choices`: at least two choices, at most 20,
and the `choice_text`s pairwise distinct (`len(set(texts)) == len(texts)`,
exact string comparison). -/
def validate_choices (choices : List String) : Except ApiError (List String) :=
  if choices.length < 2 then
    .error (.validation "Should be at least two.")
  else if choices.length > 20 then
    .error (.validation "Should not be more than 20.")
  else if choices.dedup.length != choices.length then
    .error (.validation "Should be unique.")
  else
    .ok choices

/-- `Question.published_objects.get(pk=pk)`: fetch from the published
queryset; raises `DoesNotExist` (uncaught, a server error) when no published
question has that pk. -/
def published_get (s : State) (now : Int) (pk : Nat) : Except ApiError Question :=
  match (published_get_queryset s now).find? (fun q => q.id == pk) with
  | some q => .ok q
  | none => .error .doesNotExist

/-- The `choice` field of `VoteSerializer` is a primary-key related field:
resolving a pk that matches no `Choice` row is a field-level
`ValidationError`. -/
def resolve_choice (s : State) (choice_pk : Nat) : Except ApiError Choice :=
  match s.choices.find? (fun c => c.id == choice_pk) with
  | some c => .ok c
  | none => .error (.validation "Invalid pk")

/-- `VoteSerializer.validate_choice`: the resolved choice must be contained
in `question.choices` for the published question named by the URL's
`question_pk` (queryset containment, i.e. by pk). -/
def validate_choice (s : State) (now : Int) (question_pk : Nat) (choice : Choice) :
    Except ApiError Choice :=
  match published_get s now question_pk with
  | .error e => .error e
  | .ok question =>
    let valid_choices := s.choices.filter (fun c => c.question == question.id)
    if valid_choices.any (fun c => c.id == choice.id) then
      .ok choice
    else
      .error (.validation "Is not accepted by this question.")

/-- `VoteSerializer.validate`: on `POST` only, reject when some choice of the
URL's question already has a vote by the requesting voter
(`valid_choices.filter(vote__voter=voter_pk)` non-empty). -/
def VoteSerializer.validate (s : State) (now : Int) (method : Method)
    (question_pk voter_pk : Nat) : Except ApiError Unit :=
  match published_get s now question_pk with
  | .error e => .error e
  | .ok question =>
    let valid_choices := s.choices.filter (fun c => c.question == question.id)
    if method == .POST &&
        !(valid_choices.filter
            (fun c => s.votes.any (fun v => v.choice == c.id && v.voter == voter_pk))).isEmpty then
      .error (.validation "Multiple voting detected.")
    else
      .ok ()

/-- `VoteSerializer.run_validation`: field validation of the optional
`choice` payload entry (pk resolution, then `validate_choice`), then the
object-level `validate`; returns the validated data. -/
def VoteSerializer.run_validation (s : State) (now : Int) (method : Method)
    (question_pk voter_pk : Nat) (payload_choice : Option Nat) (payload_hide : Option Bool) :
    Except ApiError (Option Choice × Option Bool) :=
  match payload_choice with
  | none =>
    match VoteSerializer.validate s now method question_pk voter_pk with
    | .error e => .error e
    | .ok _ => .ok (none, payload_hide)
  | some cpk =>
    match resolve_choice s cpk with
    | .error e => .error e
    | .ok c =>
      match validate_choice s now question_pk c with
      | .error e => .error e
      | .ok c =>
        match VoteSerializer.validate s now method question_pk voter_pk with
        | .error e => .error e
        | .ok _ => .ok (some c, payload_hide)

/-- `VoteSerializer.get_voter_username`: the literal `"*******"` when
`hide_voter` is set, otherwise the voter's username (FK dereference). -/
def get_voter_username (s : State) (v : Vote) : String :=
  if v.hide_voter then "*******"
  else (((s.users.find? (fun u => u.pk == v.voter)).map User.username).getD "")

/-- `IsAuthorOrReadOnly.has_permission`: authenticated users only. -/
def IsAuthorOrReadOnly.has_permission (user : User) : Bool :=
  user.is_authenticated

/-- `IsAuthorOrReadOnly.has_object_permission`: safe methods and `POST` are
always allowed; otherwise the object's author must be the requesting
user. -/
def IsAuthorOrReadOnly.has_object_permission (method : Method) (user : User)
    (author : Nat) : Bool :=
  if method.isSafe || method == .POST then true else author == user.pk

/-- `IsVoterOnly.has_permission`: authenticated users only. -/
def IsVoterOnly.has_permission (user : User) : Bool :=
  user.is_authenticated

/-- `IsVoterOnly.has_object_permission`: the vote's voter must be the
requesting user. -/
def IsVoterOnly.has_object_permission (user : User) (voter : Nat) : Bool :=
  voter == user.pk

/-- Modelled from the spec: `ChoiceViewSet` sets no `permission_classes`, so
the project settings module's default permission policy applies; that module
is not among the app sources.  Per the spec, "every operation requires an
authenticated identity, unauthenticated requests are uniformly rejected
before any object is touched", so the default is the authenticated-only
gate. -/
def DefaultPermission.has_permission (user : User) : Bool :=
  user.is_authenticated

/-- Deleting a question cascades to its choices and their votes
(`on_delete=CASCADE` on both FKs). -/
def cascadeDeleteQuestion (s : State) (qid : Nat) : State :=
  let deadChoices := s.choices.filter (fun c => c.question == qid)
  { s with
    questions := s.questions.filter (fun q => q.id != qid)
    choices := s.choices.filter (fun c => c.question != qid)
    votes := s.votes.filter (fun v => !deadChoices.any (fun c => c.id == v.choice)) }

/-- `GET /polls/`: permission gate, then the published queryset. -/
def QuestionViewSet.list (s : State) (now : Int) (user : User) :
    Except ApiError (List Question) :=
  if !IsAuthorOrReadOnly.has_permission user then .error .forbidden
  else .ok (published_get_queryset s now)

/-- `POST /polls/`: permission gate, serializer validation (`choices` bounds
and distinctness, `question_text` uniqueness), then
`perform_create` → `QuestionManager.create` with `author = request.user`. -/
def QuestionViewSet.create (s : State) (user : User) (qid : Nat)
    (question_text : String) (date_published : Int)
    (choice_payload : List (Nat × String)) : State × Option ApiError :=
  if !IsAuthorOrReadOnly.has_permission user then (s, some .forbidden)
  else match validate_choices (choice_payload.map Prod.snd) with
    | .error e => (s, some e)
    | .ok _ =>
      if s.questions.any (fun q => q.question_text == question_text) then
        (s, some (.validation "question with this question text already exists."))
      else
        QuestionManager.create s qid user.pk question_text date_published choice_payload

/-- `GET /polls/{pk}/`: permission gate, `get_object` against the published
queryset (404 on miss), then the object-level gate for a safe method. -/
def QuestionViewSet.retrieve (s : State) (now : Int) (user : User) (pk : Nat) :
    Except ApiError Question :=
  if !IsAuthorOrReadOnly.has_permission user then .error .forbidden
  else match (published_get_queryset s now).find? (fun q => q.id == pk) with
    | none => .error .notFound
    | some q =>
      if IsAuthorOrReadOnly.has_object_permission .GET user q.author then .ok q
      else .error .forbidden

/-- `DELETE /polls/{pk}/`: permission gate, `get_object` against the
published queryset (404 on miss), object-level gate (author only), then the
cascading delete. -/
def QuestionViewSet.destroy (s : State) (now : Int) (user : User) (pk : Nat) :
    Except ApiError State :=
  if !IsAuthorOrReadOnly.has_permission user then .error .forbidden
  else match (published_get_queryset s now).find? (fun q => q.id == pk) with
    | none => .error .notFound
    | some q =>
      if IsAuthorOrReadOnly.has_object_permission .DELETE user q.author then
        .ok (cascadeDeleteQuestion s q.id)
      else .error .forbidden

/-- `ChoiceViewSet.get_queryset`: the choices of the URL's question,
annotated with their vote counts. -/
def ChoiceViewSet.get_queryset (s : State) (question_pk : Nat) : List (Choice × Nat) :=
  (s.choices.filter (fun c => c.question == question_pk)).map
    (fun c => (c, (s.votes.filter (fun v => v.choice == c.id)).length))

/-- `GET /polls/{question_pk}/choices/`: default permission gate, then the
annotated queryset. -/
def ChoiceViewSet.list (s : State) (user : User) (question_pk : Nat) :
    Except ApiError (List (Choice × Nat)) :=
  if !DefaultPermission.has_permission user then .error .forbidden
  else .ok (ChoiceViewSet.get_queryset s question_pk)

/-- `GET /polls/{question_pk}/choices/{pk}/`: default permission gate, then
lookup in the annotated queryset (404 on miss). -/
def ChoiceViewSet.retrieve (s : State) (user : User) (question_pk choice_pk : Nat) :
    Except ApiError (Choice × Nat) :=
  if !DefaultPermission.has_permission user then .error .forbidden
  else match (ChoiceViewSet.get_queryset s question_pk).find? (fun c => c.1.id == choice_pk) with
    | some c => .ok c
    | none => .error .notFound

/-- `VoteViewSet.get_queryset`: the votes whose `choice` is the URL's
`choice_pk`. -/
def VoteViewSet.get_queryset (s : State) (choice_pk : Nat) : List Vote :=
  s.votes.filter (fun v => v.choice == choice_pk)

/-- `get_object` of `VoteViewSet`: lookup by pk within `get_queryset`
(404 on miss). -/
def VoteViewSet.get_object (s : State) (choice_pk vote_pk : Nat) : Except ApiError Vote :=
  match (VoteViewSet.get_queryset s choice_pk).find? (fun v => v.id == vote_pk) with
  | some v => .ok v
  | none => .error .notFound

/-- `GET .../votes/`: permission gate, then the queryset. -/
def VoteViewSet.list (s : State) (user : User) (choice_pk : Nat) :
    Except ApiError (List Vote) :=
  if !IsVoterOnly.has_permission user then .error .forbidden
  else .ok (VoteViewSet.get_queryset s choice_pk)

/-- `GET .../votes/{pk}/`: permission gate, `get_object`, object-level
gate. -/
def VoteViewSet.retrieve (s : State) (user : User) (choice_pk vote_pk : Nat) :
    Except ApiError Vote :=
  if !IsVoterOnly.has_permission user then .error .forbidden
  else
    match VoteViewSet.get_object s choice_pk vote_pk with
    | .error e => .error e
    | .ok vote =>
      if !IsVoterOnly.has_object_permission user vote.voter then .error .forbidden
      else .ok vote

/-- `POST .../votes/`: permission gate, serializer validation, then
`perform_create`: `voter := request.user`, and when the payload holds no
`choice` the URL's `choice_pk` is resolved with `Choice.objects.get` (an
uncaught `DoesNotExist` when absent); `hide_voter` falls back to the model
default `true`.  The row insert is subject to
`unique_voters_per_choice`. -/
def VoteViewSet.create (s : State) (now : Int) (user : User)
    (question_pk choice_pk new_vote_id : Nat)
    (payload_choice : Option Nat) (payload_hide : Option Bool) :
    Except ApiError State :=
  if !IsVoterOnly.has_permission user then .error .forbidden
  else
    match VoteSerializer.run_validation s now .POST question_pk user.pk
        payload_choice payload_hide with
    | .error e => .error e
    | .ok (vc, vh) =>
      match vc with
      | some c =>
        insertVote s
          { id := new_vote_id, voter := user.pk, choice := c.id,
            hide_voter := vh.getD true }
      | none =>
        match s.choices.find? (fun c => c.id == choice_pk) with
        | some c =>
          insertVote s
            { id := new_vote_id, voter := user.pk, choice := c.id,
              hide_voter := vh.getD true }
        | none => .error .doesNotExist

/-- `PUT .../votes/{pk}/`: permission gate, `get_object` (404 on miss),
object-level gate (voter only), serializer validation, then the instance
save: fields absent from the payload keep their stored values. -/
def VoteViewSet.update (s : State) (now : Int) (user : User)
    (question_pk choice_pk vote_pk : Nat)
    (payload_choice : Option Nat) (payload_hide : Option Bool) :
    Except ApiError State :=
  if !IsVoterOnly.has_permission user then .error .forbidden
  else
    match VoteViewSet.get_object s choice_pk vote_pk with
    | .error e => .error e
    | .ok vote =>
      if !IsVoterOnly.has_object_permission user vote.voter then .error .forbidden
      else
        match VoteSerializer.run_validation s now .PUT question_pk user.pk
            payload_choice payload_hide with
        | .error e => .error e
        | .ok (vc, vh) =>
          saveVoteRow s
            { vote with
              choice := (vc.map (fun c => c.id)).getD vote.choice
              hide_voter := vh.getD vote.hide_voter }

/-- `DELETE .../votes/{pk}/`: permission gate, `get_object` (404 on miss),
object-level gate (voter only), then the row delete. -/
def VoteViewSet.destroy (s : State) (user : User) (choice_pk vote_pk : Nat) :
    Except ApiError State :=
  if !IsVoterOnly.has_permission user then .error .forbidden
  else
    match VoteViewSet.get_object s choice_pk vote_pk with
    | .error e => .error e
    | .ok vote =>
      if !IsVoterOnly.has_object_permission user vote.voter then .error .forbidden
      else .ok { s with votes := s.votes.filter (fun v => v.id != vote.id) }

/-- Outcome of one request against the store: an erroring request leaves the
store as it was (validation and permission checks run before any write, and
the one multi-statement write is transactional). -/
def handle (s : State) : Except ApiError State → State × Option ApiError
  | .ok s2 => (s2, none)
  | .error e => (s, some e)

end Polls

namespace Polls

/-- C1 boolean filter unfolded to a `Prop`. -/
theorem published_filter_iff (s : State) (now : Int) (q : Question) :
    (!(decide (now < q.date_published) || choice_count s q == 0)) = true ↔
      q.date_published ≤ now ∧ 1 ≤ choice_count s q := by
  simp [Bool.not_eq_true', Bool.or_eq_false_iff, decide_eq_false_iff_not, not_lt]
  omega

/-- Membership in the published queryset. -/
theorem mem_published_iff (s : State) (now : Int) (q : Question) :
    q ∈ published_get_queryset s now ↔
      q ∈ s.questions ∧ q.date_published ≤ now ∧ 1 ≤ choice_count s q := by
  unfold published_get_queryset
  rw [List.mem_insertionSort, List.mem_filter, published_filter_iff]

/-- **C1**: `ListPublishedQuestions` returns exactly the stored questions with
`date_published ≤ now` and at least one choice, ordered by `date_published`
descending; a future-dated or choice-less question never appears. -/
theorem published_questions_correct (s : State) (now : Int) :
    (∀ q : Question, q ∈ published_get_queryset s now ↔
        q ∈ s.questions ∧ q.date_published ≤ now ∧ 1 ≤ choice_count s q) ∧
    (published_get_queryset s now).Pairwise
      (fun a b => b.date_published ≤ a.date_published) := by
  constructor
  · exact mem_published_iff s now
  · unfold published_get_queryset
    haveI : IsTotal Question (fun a b => b.date_published ≤ a.date_published) :=
      ⟨fun a b => le_total b.date_published a.date_published⟩
    haveI : IsTrans Question (fun a b => b.date_published ≤ a.date_published) :=
      ⟨fun a b c h1 h2 => le_trans h2 h1⟩
    exact List.sorted_insertionSort _ _

/-- A failed transaction rolls the store back to the state at entry. -/
theorem transaction_atomic_rollback (s : State)
    (stmts : List (State → Except ApiError State)) (e : ApiError)
    (h : (transaction_atomic s stmts).2 = some e) :
    (transaction_atomic s stmts).1 = s := by
  unfold transaction_atomic at h ⊢
  rcases hr : runStatements s stmts with ⟨s2, oe⟩
  rw [hr] at h
  cases oe with
  | none => exact Option.noConfusion h
  | some e2 => rfl

/-- **C2**: `QuestionManager.create` is all-or-nothing: whenever any insert
of the transaction fails, the resulting store is exactly the store at
entry, so neither the question row nor any choice row from that create
survives. -/
theorem question_create_atomic (s : State) (qid author : Nat)
    (question_text : String) (date_published : Int)
    (choice_payload : List (Nat × String)) (e : ApiError)
    (hfail : (QuestionManager.create s qid author question_text date_published
        choice_payload).2 = some e) :
    (QuestionManager.create s qid author question_text date_published
        choice_payload).1 = s ∧
    ((∀ q ∈ s.questions, q.id ≠ qid) →
      ∀ q ∈ (QuestionManager.create s qid author question_text date_published
          choice_payload).1.questions, q.id ≠ qid) ∧
    ((∀ c ∈ s.choices, c.question ≠ qid) →
      ∀ c ∈ (QuestionManager.create s qid author question_text date_published
          choice_payload).1.choices, c.question ≠ qid) := by
  have h1 : (QuestionManager.create s qid author question_text date_published
      choice_payload).1 = s :=
    transaction_atomic_rollback s _ e hfail
  refine ⟨h1, ?_, ?_⟩
  · intro hfresh q hq
    rw [h1] at hq
    exact hfresh q hq
  · intro hfresh c hc
    rw [h1] at hc
    exact hfresh c hc

/-- Witness for C2: a concrete create whose second choice insert violates
`unique_choices_per_question` leaves the empty store unchanged. -/
theorem question_create_atomic_witness :
    (QuestionManager.create ⟨[], [], [], []⟩ 1 7 "Q" 0 [(1, "A"), (2, "A")]).1
      = ⟨[], [], [], []⟩ :=
  (question_create_atomic ⟨[], [], [], []⟩ 1 7 "Q" 0 [(1, "A"), (2, "A")]
      (ApiError.integrity "unique_choices_per_question") (by decide)).1

/-- `len(set(texts)) == len(texts)` characterises pairwise distinctness. -/
theorem dedup_length_eq_iff_nodup (l : List String) :
    l.dedup.length = l.length ↔ l.Nodup := by
  constructor
  · intro h
    have heq : l.dedup = l := (List.dedup_sublist l).eq_of_length h
    rw [← heq]
    exact List.nodup_dedup l
  · intro h
    rw [List.dedup_eq_self.mpr h]

/-- **C3**: question-creation choice validation accepts exactly the payloads
with 2 to 20 pairwise-distinct (case-sensitive) choice texts, and the
boundaries behave as stated: 2 and 20 accepted, 1 and 21 rejected. -/
theorem validate_choices_correct (choices : List String) :
    ((validate_choices choices).isOk = true ↔
      2 ≤ choices.length ∧ choices.length ≤ 20 ∧ choices.Nodup) ∧
    (validate_choices ["a", "b"]).isOk = true ∧
    (validate_choices ["c01", "c02", "c03", "c04", "c05", "c06", "c07", "c08",
      "c09", "c10", "c11", "c12", "c13", "c14", "c15", "c16", "c17", "c18",
      "c19", "c20"]).isOk = true ∧
    (validate_choices ["a"]).isOk = false ∧
    (validate_choices ["c01", "c02", "c03", "c04", "c05", "c06", "c07", "c08",
      "c09", "c10", "c11", "c12", "c13", "c14", "c15", "c16", "c17", "c18",
      "c19", "c20", "c21"]).isOk = false := by
  refine ⟨?_, by decide, by decide, by decide, by decide⟩
  unfold validate_choices
  by_cases h1 : choices.length < 2
  · simp only [if_pos h1]
    simp [Except.isOk, Except.toBool]
    omega
  · rw [if_neg h1]
    by_cases h2 : choices.length > 20
    · simp only [if_pos h2]
      simp [Except.isOk, Except.toBool]
      omega
    · rw [if_neg h2]
      by_cases h3 : choices.dedup.length = choices.length
      · have hne : (choices.dedup.length != choices.length) = false := by
          simp [h3]
        rw [hne]
        simp [Except.isOk, Except.toBool,
          (dedup_length_eq_iff_nodup choices).mp h3]
        omega
      · have hne : (choices.dedup.length != choices.length) = true := by
          simp [h3]
        rw [hne]
        simp [Except.isOk, Except.toBool]
        intro _ _ hn
        exact h3 ((dedup_length_eq_iff_nodup choices).mpr hn)

/-- **C4**: on vote creation (`POST`) a voter who already holds a vote on any
choice of the path's question is rejected with a validation error (400); the
check is applied only on creation: on `PUT` the object-level `validate`
passes unconditionally, and only the storage-level `(voter, choice)`
uniqueness constraint applies to the row save. -/
theorem vote_once_per_question_create_only (s : State) (now : Int)
    (question : Question) (voter_pk : Nat) (c : Choice) (v : Vote)
    (hq : published_get s now question.id = .ok question)
    (hc : c ∈ s.choices) (hcq : c.question = question.id)
    (hv : v ∈ s.votes) (hvv : v.voter = voter_pk) (hvc : v.choice = c.id) :
    VoteSerializer.validate s now .POST question.id voter_pk
      = .error (.validation "Multiple voting detected.") ∧
    VoteSerializer.validate s now .PUT question.id voter_pk = .ok () ∧
    (∀ w : Vote,
      (saveVoteRow s w).isOk = false ↔
        (s.votes.any
          (fun v0 => v0.id != w.id && v0.voter == w.voter && v0.choice == w.choice)) = true) := by
  refine ⟨?_, ?_, ?_⟩
  · unfold VoteSerializer.validate
    rw [hq]
    simp
    exact ⟨c, hc, v, hv, hvc, hvv, hcq⟩
  · unfold VoteSerializer.validate
    rw [hq]
    rfl
  · intro w
    unfold saveVoteRow
    by_cases hdup : (s.votes.any
        (fun v0 => v0.id != w.id && v0.voter == w.voter && v0.choice == w.choice)) = true
    · simp [hdup, Except.isOk, Except.toBool]
    · rw [Bool.not_eq_true] at hdup
      simp [hdup, Except.isOk, Except.toBool]

/-- Witness for C4: voter 5 already voted for choice 1 of published question
1; a second `POST` is rejected while the `PUT`-time check passes. -/
theorem vote_once_per_question_create_only_witness :
    VoteSerializer.validate
        ⟨[], [⟨1, 7, "Q", 0⟩], [⟨1, 1, "A"⟩, ⟨2, 1, "B"⟩], [⟨1, 5, 1, true⟩]⟩
        10 .POST 1 5 = .error (.validation "Multiple voting detected.") ∧
    VoteSerializer.validate
        ⟨[], [⟨1, 7, "Q", 0⟩], [⟨1, 1, "A"⟩, ⟨2, 1, "B"⟩], [⟨1, 5, 1, true⟩]⟩
        10 .PUT 1 5 = .ok () := by
  have h := vote_once_per_question_create_only
    ⟨[], [⟨1, 7, "Q", 0⟩], [⟨1, 1, "A"⟩, ⟨2, 1, "B"⟩], [⟨1, 5, 1, true⟩]⟩
    10 ⟨1, 7, "Q", 0⟩ 5 ⟨1, 1, "A"⟩ ⟨1, 5, 1, true⟩
    (by rfl) (by decide) (by decide) (by decide) (by decide) (by decide)
  exact ⟨h.1, h.2.1⟩

/-- A successful `published_objects.get(pk=pk)` returns the question with
that pk. -/
theorem published_get_ok_id (s : State) (now : Int) (pk : Nat) (q : Question)
    (hq : published_get s now pk = .ok q) : q.id = pk := by
  unfold published_get at hq
  cases hfind : (published_get_queryset s now).find? (fun q0 => q0.id == pk) with
  | none =>
    rw [hfind] at hq
    exact Except.noConfusion hq
  | some q2 =>
    rw [hfind] at hq
    have hq2 : q2 = q := by injection hq
    have hp := List.find?_some hfind
    rw [hq2] at hp
    simpa using hp

/-- When the `choice` payload pk matches no choice of the path's (published)
question, `VoteSerializer.run_validation` ends in a field-level validation
error, for any method. -/
theorem run_validation_bad_choice (s : State) (now : Int) (method : Method)
    (question_pk voter_pk cpk : Nat) (ph : Option Bool) (q : Question)
    (hq : published_get s now question_pk = .ok q)
    (hbad : ∀ c ∈ s.choices, c.id = cpk → c.question ≠ question_pk) :
    ∃ msg, VoteSerializer.run_validation s now method question_pk voter_pk (some cpk) ph
      = .error (.validation msg) := by
  have hqid : q.id = question_pk := published_get_ok_id s now question_pk q hq
  cases hfind : s.choices.find? (fun c => c.id == cpk) with
  | none =>
    refine ⟨"Invalid pk", ?_⟩
    simp only [VoteSerializer.run_validation, resolve_choice, hfind]
  | some c =>
    have hcmem := List.mem_of_find?_eq_some hfind
    have hcid : c.id = cpk := by simpa using List.find?_some hfind
    refine ⟨"Is not accepted by this question.", ?_⟩
    have hany : (s.choices.filter (fun c0 => c0.question == q.id)).any
        (fun c0 => c0.id == c.id) = false := by
      rw [List.any_eq_false]
      intro c0 hc0
      rw [List.mem_filter] at hc0
      simp only [beq_iff_eq] at hc0 ⊢
      intro hid
      exact hbad c0 hc0.1 (hid.trans hcid) (hc0.2.trans hqid)
    simp only [VoteSerializer.run_validation, resolve_choice, validate_choice,
      hfind, hq, hany]
    rfl

/-- **C5**: a vote create or update whose `choice` payload references a pk
that is not a choice of the question named in the request path — a
nonexistent choice or one belonging to a different question — is rejected
with a serializer validation error, HTTP 400, not a 404 lookup failure. -/
theorem cross_question_choice_is_validation_error (s : State) (now : Int)
    (user : User) (question_pk choice_pk new_vote_id vote_pk cpk : Nat)
    (ph : Option Bool) (q : Question)
    (hauth : user.is_authenticated = true)
    (hq : published_get s now question_pk = .ok q)
    (hbad : ∀ c ∈ s.choices, c.id = cpk → c.question ≠ question_pk) :
    (∃ msg,
      VoteViewSet.create s now user question_pk choice_pk new_vote_id (some cpk) ph
          = .error (.validation msg) ∧
        statusCode (.validation msg) = 400) ∧
    (∀ vote, VoteViewSet.get_object s choice_pk vote_pk = .ok vote →
      vote.voter = user.pk →
      ∃ msg,
        VoteViewSet.update s now user question_pk choice_pk vote_pk (some cpk) ph
            = .error (.validation msg) ∧
          statusCode (.validation msg) = 400) := by
  have hperm : (!IsVoterOnly.has_permission user) = false := by
    simp [IsVoterOnly.has_permission, hauth]
  constructor
  · obtain ⟨msg, hmsg⟩ :=
      run_validation_bad_choice s now .POST question_pk user.pk cpk ph q hq hbad
    refine ⟨msg, ?_, rfl⟩
    simp only [VoteViewSet.create, hperm, hmsg]
    rfl
  · intro vote hvote hown
    obtain ⟨msg, hmsg⟩ :=
      run_validation_bad_choice s now .PUT question_pk user.pk cpk ph q hq hbad
    refine ⟨msg, ?_, rfl⟩
    have hop : (!IsVoterOnly.has_object_permission user vote.voter) = false := by
      simp [IsVoterOnly.has_object_permission, hown]
    simp only [VoteViewSet.update, hperm, hvote, hop, hmsg]
    rfl

/-- Witness for C5: choice 3 belongs to question 2, referenced under
question 1's path; both the create and the update are rejected. -/
theorem cross_question_choice_is_validation_error_witness :
    (VoteViewSet.create
        ⟨[], [⟨1, 7, "Q1", 0⟩, ⟨2, 7, "Q2", 0⟩],
          [⟨1, 1, "A"⟩, ⟨2, 1, "B"⟩, ⟨3, 2, "C"⟩], [⟨1, 5, 1, true⟩]⟩
        10 ⟨5, "u", true⟩ 1 1 2 (some 3) none).isOk = false ∧
    (VoteViewSet.update
        ⟨[], [⟨1, 7, "Q1", 0⟩, ⟨2, 7, "Q2", 0⟩],
          [⟨1, 1, "A"⟩, ⟨2, 1, "B"⟩, ⟨3, 2, "C"⟩], [⟨1, 5, 1, true⟩]⟩
        10 ⟨5, "u", true⟩ 1 1 1 (some 3) none).isOk = false := by
  have h := cross_question_choice_is_validation_error
    ⟨[], [⟨1, 7, "Q1", 0⟩, ⟨2, 7, "Q2", 0⟩],
      [⟨1, 1, "A"⟩, ⟨2, 1, "B"⟩, ⟨3, 2, "C"⟩], [⟨1, 5, 1, true⟩]⟩
    10 ⟨5, "u", true⟩ 1 1 2 1 3 none ⟨1, 7, "Q1", 0⟩
    (by decide) (by rfl) (by decide)
  obtain ⟨⟨m1, hm1, _⟩, h2⟩ := h
  obtain ⟨m2, hm2, _⟩ := h2 ⟨1, 5, 1, true⟩ (by rfl) (by decide)
  rw [hm1, hm2]
  exact ⟨rfl, rfl⟩

/-- **C6**: a vote update whose new target choice is nonexistent or belongs
to a different question than the path's question is rejected, and the store
— in particular the stored vote, both its `choice` and its `hide_voter` — is
left exactly as before: re-fetching the vote after the failed request still
yields the original row. -/
theorem vote_update_invalid_choice_unchanged (s : State) (now : Int)
    (user : User) (question_pk choice_pk vote_pk cpk : Nat) (ph : Option Bool)
    (q : Question) (vote : Vote)
    (hauth : user.is_authenticated = true)
    (hq : published_get s now question_pk = .ok q)
    (hbad : ∀ c ∈ s.choices, c.id = cpk → c.question ≠ question_pk)
    (hvote : VoteViewSet.get_object s choice_pk vote_pk = .ok vote)
    (hown : vote.voter = user.pk) :
    (VoteViewSet.update s now user question_pk choice_pk vote_pk (some cpk) ph).isOk
        = false ∧
    (handle s
        (VoteViewSet.update s now user question_pk choice_pk vote_pk (some cpk) ph)).1
      = s ∧
    VoteViewSet.get_object
        (handle s
          (VoteViewSet.update s now user question_pk choice_pk vote_pk (some cpk) ph)).1
        choice_pk vote_pk = .ok vote := by
  have hperm : (!IsVoterOnly.has_permission user) = false := by
    simp [IsVoterOnly.has_permission, hauth]
  have hop : (!IsVoterOnly.has_object_permission user vote.voter) = false := by
    simp [IsVoterOnly.has_object_permission, hown]
  obtain ⟨msg, hmsg⟩ :=
    run_validation_bad_choice s now .PUT question_pk user.pk cpk ph q hq hbad
  have hupd : VoteViewSet.update s now user question_pk choice_pk vote_pk (some cpk) ph
      = .error (.validation msg) := by
    simp only [VoteViewSet.update, hperm, hvote, hop, hmsg]
    rfl
  rw [hupd]
  exact ⟨rfl, rfl, hvote⟩

/-- Witness for C6: updating vote 1 (on choice 1 of question 1) to the
nonexistent choice 4 is rejected and the vote is still retrievable
unchanged. -/
theorem vote_update_invalid_choice_unchanged_witness :
    (VoteViewSet.update
        ⟨[], [⟨1, 7, "Q1", 0⟩], [⟨1, 1, "A"⟩, ⟨2, 1, "B"⟩], [⟨1, 5, 1, true⟩]⟩
        10 ⟨5, "u", true⟩ 1 1 1 (some 4) none).isOk = false ∧
    VoteViewSet.get_object
        (handle ⟨[], [⟨1, 7, "Q1", 0⟩], [⟨1, 1, "A"⟩, ⟨2, 1, "B"⟩], [⟨1, 5, 1, true⟩]⟩
          (VoteViewSet.update
            ⟨[], [⟨1, 7, "Q1", 0⟩], [⟨1, 1, "A"⟩, ⟨2, 1, "B"⟩], [⟨1, 5, 1, true⟩]⟩
            10 ⟨5, "u", true⟩ 1 1 1 (some 4) none)).1
        1 1 = .ok ⟨1, 5, 1, true⟩ := by
  have h := vote_update_invalid_choice_unchanged
    ⟨[], [⟨1, 7, "Q1", 0⟩], [⟨1, 1, "A"⟩, ⟨2, 1, "B"⟩], [⟨1, 5, 1, true⟩]⟩
    10 ⟨5, "u", true⟩ 1 1 1 4 none ⟨1, 7, "Q1", 0⟩ ⟨1, 5, 1, true⟩
    (by decide) (by rfl) (by decide) (by rfl) (by decide)
  exact ⟨h.1, h.2.2⟩

/-- **C7**: every endpoint of every resource rejects an unauthenticated
request with 403, before any object is touched (the outcome is the same for
every store and every URL parameter). -/
theorem unauthenticated_rejected (s : State) (now : Int) (user : User)
    (hanon : user.is_authenticated = false)
    (pk qid question_pk choice_pk vote_pk new_vote_id : Nat)
    (question_text : String) (date_published : Int)
    (choice_payload : List (Nat × String))
    (pc : Option Nat) (ph : Option Bool) :
    QuestionViewSet.list s now user = .error .forbidden ∧
    QuestionViewSet.create s user qid question_text date_published choice_payload
      = (s, some .forbidden) ∧
    QuestionViewSet.retrieve s now user pk = .error .forbidden ∧
    QuestionViewSet.destroy s now user pk = .error .forbidden ∧
    ChoiceViewSet.list s user question_pk = .error .forbidden ∧
    ChoiceViewSet.retrieve s user question_pk choice_pk = .error .forbidden ∧
    VoteViewSet.list s user choice_pk = .error .forbidden ∧
    VoteViewSet.create s now user question_pk choice_pk new_vote_id pc ph
      = .error .forbidden ∧
    VoteViewSet.retrieve s user choice_pk vote_pk = .error .forbidden ∧
    VoteViewSet.update s now user question_pk choice_pk vote_pk pc ph
      = .error .forbidden ∧
    VoteViewSet.destroy s user choice_pk vote_pk = .error .forbidden ∧
    statusCode .forbidden = 403 := by
  have h1 : (!IsAuthorOrReadOnly.has_permission user) = true := by
    simp [IsAuthorOrReadOnly.has_permission, hanon]
  have h2 : (!IsVoterOnly.has_permission user) = true := by
    simp [IsVoterOnly.has_permission, hanon]
  have h3 : (!DefaultPermission.has_permission user) = true := by
    simp [DefaultPermission.has_permission, hanon]
  refine ⟨?_, ?_, ?_, ?_, ?_, ?_, ?_, ?_, ?_, ?_, ?_, rfl⟩
  · simp only [QuestionViewSet.list, h1]
    rfl
  · simp only [QuestionViewSet.create, h1]
    rfl
  · simp only [QuestionViewSet.retrieve, h1]
    rfl
  · simp only [QuestionViewSet.destroy, h1]
    rfl
  · simp only [ChoiceViewSet.list, h3]
    rfl
  · simp only [ChoiceViewSet.retrieve, h3]
    rfl
  · simp only [VoteViewSet.list, h2]
    rfl
  · simp only [VoteViewSet.create, h2]
    rfl
  · simp only [VoteViewSet.retrieve, h2]
    rfl
  · simp only [VoteViewSet.update, h2]
    rfl
  · simp only [VoteViewSet.destroy, h2]
    rfl

/-- Witness for C7: the anonymous user is rejected on a question retrieve
and on a vote create against a concrete store. -/
theorem unauthenticated_rejected_witness :
    QuestionViewSet.retrieve
        ⟨[], [⟨1, 7, "Q1", 0⟩], [⟨1, 1, "A"⟩, ⟨2, 1, "B"⟩], []⟩
        10 ⟨0, "anon", false⟩ 1 = .error .forbidden ∧
    VoteViewSet.create
        ⟨[], [⟨1, 7, "Q1", 0⟩], [⟨1, 1, "A"⟩, ⟨2, 1, "B"⟩], []⟩
        10 ⟨0, "anon", false⟩ 1 1 1 none none = .error .forbidden := by
  have h := unauthenticated_rejected
    ⟨[], [⟨1, 7, "Q1", 0⟩], [⟨1, 1, "A"⟩, ⟨2, 1, "B"⟩], []⟩
    10 ⟨0, "anon", false⟩ (by decide) 1 1 1 1 1 1 "t" 0 [] none none
  exact ⟨h.2.2.1, h.2.2.2.2.2.2.2.1⟩

/-- A successful vote insert appends exactly the new row. -/
theorem insertVote_ok_votes (s : State) (v : Vote) (s2 : State)
    (h : insertVote s v = .ok s2) : s2.votes = s.votes ++ [v] := by
  unfold insertVote at h
  split at h
  · exact Except.noConfusion h
  · injection h with h2
    rw [← h2]

/-- **C8**: question delete is allowed only to the question's author — any
other authenticated identity gets 403 — while question read succeeds for
every authenticated identity; vote update and delete are allowed only to
the vote's own voter (403 for anyone else, the row delete for the voter),
and a created vote always belongs to the requesting voter. -/
theorem author_only_delete_voter_only_votes (s : State) (now : Int)
    (user : User) (pk : Nat) (q : Question)
    (hauth : user.is_authenticated = true)
    (hq : (published_get_queryset s now).find? (fun q0 => q0.id == pk) = some q) :
    (q.author ≠ user.pk → QuestionViewSet.destroy s now user pk = .error .forbidden) ∧
    (q.author = user.pk →
      QuestionViewSet.destroy s now user pk = .ok (cascadeDeleteQuestion s q.id)) ∧
    QuestionViewSet.retrieve s now user pk = .ok q ∧
    (∀ choice_pk vote_pk vote,
      VoteViewSet.get_object s choice_pk vote_pk = .ok vote →
      vote.voter ≠ user.pk →
        (∀ question_pk pc ph,
          VoteViewSet.update s now user question_pk choice_pk vote_pk pc ph
            = .error .forbidden) ∧
        VoteViewSet.destroy s user choice_pk vote_pk = .error .forbidden) ∧
    (∀ choice_pk vote_pk vote,
      VoteViewSet.get_object s choice_pk vote_pk = .ok vote →
      vote.voter = user.pk →
      VoteViewSet.destroy s user choice_pk vote_pk
        = .ok { s with votes := s.votes.filter (fun v => v.id != vote.id) }) ∧
    (∀ question_pk choice_pk new_vote_id pc ph s2,
      VoteViewSet.create s now user question_pk choice_pk new_vote_id pc ph = .ok s2 →
      ∀ v ∈ s2.votes, v ∈ s.votes ∨ v.voter = user.pk) := by
  have hperm : (!IsAuthorOrReadOnly.has_permission user) = false := by
    simp [IsAuthorOrReadOnly.has_permission, hauth]
  have hperm2 : (!IsVoterOnly.has_permission user) = false := by
    simp [IsVoterOnly.has_permission, hauth]
  refine ⟨?_, ?_, ?_, ?_, ?_, ?_⟩
  · intro hne
    have hop : IsAuthorOrReadOnly.has_object_permission .DELETE user q.author = false := by
      simp [IsAuthorOrReadOnly.has_object_permission, Method.isSafe, hne]
    simp only [QuestionViewSet.destroy, hperm, hq, hop]
    rfl
  · intro heq
    have hop : IsAuthorOrReadOnly.has_object_permission .DELETE user q.author = true := by
      simp [IsAuthorOrReadOnly.has_object_permission, Method.isSafe, heq]
    simp only [QuestionViewSet.destroy, hperm, hq, hop]
    rfl
  · have hop : IsAuthorOrReadOnly.has_object_permission .GET user q.author = true := by
      simp [IsAuthorOrReadOnly.has_object_permission, Method.isSafe]
    simp only [QuestionViewSet.retrieve, hperm, hq, hop]
    rfl
  · intro choice_pk vote_pk vote hvote hne
    have hop : (!IsVoterOnly.has_object_permission user vote.voter) = true := by
      simp [IsVoterOnly.has_object_permission, hne]
    constructor
    · intro question_pk pc ph
      simp only [VoteViewSet.update, hperm2, hvote, hop]
      rfl
    · simp only [VoteViewSet.destroy, hperm2, hvote, hop]
      rfl
  · intro choice_pk vote_pk vote hvote hown
    have hop : (!IsVoterOnly.has_object_permission user vote.voter) = false := by
      simp [IsVoterOnly.has_object_permission, hown]
    simp only [VoteViewSet.destroy, hperm2, hvote, hop]
    rfl
  · intro question_pk choice_pk new_vote_id pc ph s2 hcreate v hv
    unfold VoteViewSet.create at hcreate
    rw [hperm2] at hcreate
    cases hrv : VoteSerializer.run_validation s now .POST question_pk user.pk pc ph with
    | error e =>
      rw [hrv] at hcreate
      exact Except.noConfusion hcreate
    | ok p =>
      obtain ⟨vc, vh⟩ := p
      rw [hrv] at hcreate
      cases vc with
      | some c =>
        have hvotes := insertVote_ok_votes _ _ _ hcreate
        rw [hvotes] at hv
        rcases List.mem_append.mp hv with h | h
        · exact .inl h
        · right
          rw [List.mem_singleton] at h
          rw [h]
      | none =>
        cases hfind : s.choices.find? (fun c => c.id == choice_pk) with
        | some c =>
          rw [hfind] at hcreate
          have hvotes := insertVote_ok_votes _ _ _ hcreate
          rw [hvotes] at hv
          rcases List.mem_append.mp hv with h | h
          · exact .inl h
          · right
            rw [List.mem_singleton] at h
            rw [h]
        | none =>
          rw [hfind] at hcreate
          exact Except.noConfusion hcreate

/-- Witness for C8: user 5 is not question 1's author (7) and not vote 1's
voter (9): the question delete and the vote update are 403 while the
question read succeeds. -/
theorem author_only_delete_voter_only_votes_witness :
    QuestionViewSet.destroy
        ⟨[], [⟨1, 7, "Q1", 0⟩], [⟨1, 1, "A"⟩, ⟨2, 1, "B"⟩], [⟨1, 9, 1, true⟩]⟩
        10 ⟨5, "u", true⟩ 1 = .error .forbidden ∧
    QuestionViewSet.retrieve
        ⟨[], [⟨1, 7, "Q1", 0⟩], [⟨1, 1, "A"⟩, ⟨2, 1, "B"⟩], [⟨1, 9, 1, true⟩]⟩
        10 ⟨5, "u", true⟩ 1 = .ok ⟨1, 7, "Q1", 0⟩ ∧
    VoteViewSet.update
        ⟨[], [⟨1, 7, "Q1", 0⟩], [⟨1, 1, "A"⟩, ⟨2, 1, "B"⟩], [⟨1, 9, 1, true⟩]⟩
        10 ⟨5, "u", true⟩ 1 1 1 none none = .error .forbidden := by
  have h := author_only_delete_voter_only_votes
    ⟨[], [⟨1, 7, "Q1", 0⟩], [⟨1, 1, "A"⟩, ⟨2, 1, "B"⟩], [⟨1, 9, 1, true⟩]⟩
    10 ⟨5, "u", true⟩ 1 ⟨1, 7, "Q1", 0⟩ (by decide) (by rfl)
  refine ⟨h.1 (by decide), h.2.2.1, ?_⟩
  exact (h.2.2.2.1 1 1 ⟨1, 9, 1, true⟩ (by rfl) (by decide)).1 1 none none

/-- `run_validation` passes the `hide_voter` payload through unchanged. -/
theorem run_validation_preserves_hide (s : State) (now : Int) (method : Method)
    (question_pk voter_pk : Nat) (pc : Option Nat) (ph : Option Bool)
    (vc : Option Choice) (vh : Option Bool)
    (h : VoteSerializer.run_validation s now method question_pk voter_pk pc ph
        = .ok (vc, vh)) : vh = ph := by
  cases pc with
  | none =>
    simp only [VoteSerializer.run_validation] at h
    split at h
    · exact Except.noConfusion h
    · injection h with h2
      injection h2 with h3 h4
      exact h4.symm
  | some cpk =>
    simp only [VoteSerializer.run_validation] at h
    split at h
    · exact Except.noConfusion h
    · split at h
      · exact Except.noConfusion h
      · split at h
        · exact Except.noConfusion h
        · injection h with h2
          injection h2 with h3 h4
          exact h4.symm

/-- **C9**: a vote read serializes `voter_username` as the literal
`"*******"` when the vote's `hide_voter` is true and as the voter's actual
username when it is false; a vote created without a `hide_voter` payload
defaults to `hide_voter = true`. -/
theorem voter_username_masking (s : State) (v : Vote) (u : User)
    (hu : s.users.find? (fun u0 => u0.pk == v.voter) = some u) :
    (v.hide_voter = true → get_voter_username s v = "*******") ∧
    (v.hide_voter = false → get_voter_username s v = u.username) ∧
    (∀ now user question_pk choice_pk new_vote_id pc s2,
      VoteViewSet.create s now user question_pk choice_pk new_vote_id pc none = .ok s2 →
      ∀ w ∈ s2.votes, w ∉ s.votes → w.hide_voter = true) := by
  refine ⟨?_, ?_, ?_⟩
  · intro hh
    simp [get_voter_username, hh]
  · intro hh
    simp [get_voter_username, hh, hu]
  · intro now user question_pk choice_pk new_vote_id pc s2 hcreate w hw hnot
    unfold VoteViewSet.create at hcreate
    split at hcreate
    · exact Except.noConfusion hcreate
    · cases hrv : VoteSerializer.run_validation s now .POST question_pk user.pk pc none with
      | error e =>
        rw [hrv] at hcreate
        exact Except.noConfusion hcreate
      | ok p =>
        obtain ⟨vc, vh⟩ := p
        have hvh : vh = none :=
          run_validation_preserves_hide s now .POST question_pk user.pk pc none vc vh hrv
        rw [hrv] at hcreate
        subst hvh
        cases vc with
        | some c =>
          have hvotes := insertVote_ok_votes _ _ _ hcreate
          rw [hvotes] at hw
          rcases List.mem_append.mp hw with h | h
          · exact absurd h hnot
          · rw [List.mem_singleton] at h
            rw [h]
            rfl
        | none =>
          cases hfind : s.choices.find? (fun c => c.id == choice_pk) with
          | some c =>
            rw [hfind] at hcreate
            have hvotes := insertVote_ok_votes _ _ _ hcreate
            rw [hvotes] at hw
            rcases List.mem_append.mp hw with h | h
            · exact absurd h hnot
            · rw [List.mem_singleton] at h
              rw [h]
              rfl
          | none =>
            rw [hfind] at hcreate
            exact Except.noConfusion hcreate

/-- Witness for C9: a hidden vote reads as the mask, a visible vote by the
same voter reveals `"alice"`. -/
theorem voter_username_masking_witness :
    get_voter_username
        ⟨[⟨9, "alice", true⟩], [], [], [⟨1, 9, 1, true⟩, ⟨2, 9, 1, false⟩]⟩
        ⟨1, 9, 1, true⟩ = "*******" ∧
    get_voter_username
        ⟨[⟨9, "alice", true⟩], [], [], [⟨1, 9, 1, true⟩, ⟨2, 9, 1, false⟩]⟩
        ⟨2, 9, 1, false⟩ = "alice" :=
  ⟨(voter_username_masking
      ⟨[⟨9, "alice", true⟩], [], [], [⟨1, 9, 1, true⟩, ⟨2, 9, 1, false⟩]⟩
      ⟨1, 9, 1, true⟩ ⟨9, "alice", true⟩ (by rfl)).1 rfl,
   (voter_username_masking
      ⟨[⟨9, "alice", true⟩], [], [], [⟨1, 9, 1, true⟩, ⟨2, 9, 1, false⟩]⟩
      ⟨2, 9, 1, false⟩ ⟨9, "alice", true⟩ (by rfl)).2.1 rfl⟩

/-- **C10**: the question endpoints operate on the published queryset, not
the full table: a question whose `date_published` is in the future yields
404 on both retrieve and delete, for every authenticated requester —
including the question's own author. -/
theorem unpublished_question_not_accessible (s : State) (now : Int)
    (user : User) (q : Question)
    (hauth : user.is_authenticated = true)
    (hq : q ∈ s.questions) (hfuture : now < q.date_published)
    (hids : ∀ q1 ∈ s.questions, ∀ q2 ∈ s.questions, q1.id = q2.id → q1 = q2) :
    QuestionViewSet.retrieve s now user q.id = .error .notFound ∧
    QuestionViewSet.destroy s now user q.id = .error .notFound ∧
    statusCode .notFound = 404 := by
  have hperm : (!IsAuthorOrReadOnly.has_permission user) = false := by
    simp [IsAuthorOrReadOnly.has_permission, hauth]
  have hfind : (published_get_queryset s now).find? (fun q0 => q0.id == q.id) = none := by
    rw [List.find?_eq_none]
    intro q2 hq2
    have hmem := (mem_published_iff s now q2).mp hq2
    simp only [beq_iff_eq]
    intro hid
    have hq2q : q2 = q := hids q2 hmem.1 q hq hid
    rw [hq2q] at hmem
    exact absurd hmem.2.1 (not_le.mpr hfuture)
  refine ⟨?_, ?_, rfl⟩
  · simp only [QuestionViewSet.retrieve, hperm, hfind]
    rfl
  · simp only [QuestionViewSet.destroy, hperm, hfind]
    rfl

/-- Witness for C10: question 1 has a choice but a future publish date; its
own author gets 404 on retrieve and delete. -/
theorem unpublished_question_not_accessible_witness :
    QuestionViewSet.retrieve ⟨[], [⟨1, 5, "Q", 100⟩], [⟨1, 1, "A"⟩], []⟩
        0 ⟨5, "author", true⟩ 1 = .error .notFound ∧
    QuestionViewSet.destroy ⟨[], [⟨1, 5, "Q", 100⟩], [⟨1, 1, "A"⟩], []⟩
        0 ⟨5, "author", true⟩ 1 = .error .notFound := by
  have h := unpublished_question_not_accessible
    ⟨[], [⟨1, 5, "Q", 100⟩], [⟨1, 1, "A"⟩], []⟩ 0 ⟨5, "author", true⟩
    ⟨1, 5, "Q", 100⟩ (by decide) (by decide) (by decide) (by decide)
  exact ⟨h.1, h.2.1⟩

end Polls
